import Mathlib

/-!
Shallow embedding of the task-management store and HTTP facade in
`src/app.py` (class `TaskManager` and the Flask route handlers built by
`create_app`).

Python dynamic values that reach the store (titles, descriptions,
statuses taken from JSON bodies) are modelled by `PyVal`; Python
exceptions (`ValueError` from validation, `AttributeError` from calling
`.strip()` on a non-string) by `PyError`, with fallible operations
returning `Except PyError`.  Timestamps (`datetime.now().isoformat()`)
are modelled by a `Nat` clock value passed explicitly to each mutating
operation.  In-place mutation of a task dict found inside the list is
modelled by replacing the first list element with the matching id.
-/

namespace TaskApp

/-- A Python value, as far as the store's validation can observe it:
strings, `None`, integers and booleans cover every case the validation
logic distinguishes (`not title`, `isinstance(title, str)`,
`status not in VALID_STATUSES`, `.strip()`). -/
inductive PyVal where
  | str (s : String)
  | pynone
  | int (n : Int)
  | bool (b : Bool)
deriving Repr, DecidableEq

/-- Python truthiness (`not x` is `!x.truthy`): empty strings, `None`,
`0` and `False` are falsy. -/
def PyVal.truthy : PyVal → Bool
  | .str s => !s.isEmpty
  | .pynone => false
  | .int n => n != 0
  | .bool b => b

/-- Python `isinstance(x, str)`. -/
def PyVal.isStr : PyVal → Bool
  | .str _ => true
  | _ => false

/-- The underlying string of a string value (only used after an
`isinstance`/membership check has established the value is a string). -/
def PyVal.asString : PyVal → String
  | .str s => s
  | _ => ""

/-- The Python exceptions the store can raise: `ValueError` from the
explicit validation checks, `AttributeError` from `.strip()` applied to
a non-string. -/
inductive PyError where
  | valueError (msg : String)
  | attributeError (msg : String)
deriving Repr, DecidableEq

/-- Python `s.strip()` on a string: removes leading and trailing
whitespace. -/
def pyStripStr (s : String) : String :=
  String.mk (((s.data.dropWhile Char.isWhitespace).reverse.dropWhile
    Char.isWhitespace).reverse)

/-- Python `x.strip()`: trims surrounding whitespace of a string and
raises `AttributeError` on any non-string value. -/
def pyStrip : PyVal → Except PyError String
  | .str s => .ok (pyStripStr s)
  | _ => .error (.attributeError "object has no attribute strip")

/-- A stored task record (the dict built in `TaskManager.create_task`). -/
structure Task where
  id : Nat
  title : String
  description : String
  status : String
  created_at : Nat
  updated_at : Nat
deriving Repr, DecidableEq

/-- The store state: the ordered task list and the id counter
(`TaskManager.__init__`). -/
structure TaskManager where
  tasks : List Task
  task_id_counter : Nat
deriving Repr, DecidableEq

/-- `TaskManager.__init__`: empty task list, counter starts at 1. -/
def TaskManager.init : TaskManager := { tasks := [], task_id_counter := 1 }

/-- `TaskManager.VALID_STATUSES`. -/
def VALID_STATUSES : List String := ["pending", "in_progress", "completed"]

/-- Python `status in TaskManager.VALID_STATUSES`: a list of strings can
only contain a string value. -/
def PyVal.inValidStatuses : PyVal → Bool
  | .str s => VALID_STATUSES.contains s
  | _ => false

/-- `TaskManager.create_task`: rejects a falsy or non-string title with
`ValueError`, then builds the task dict (stripping title and
description, the latter raising `AttributeError` on a non-string
description), appends it and increments the counter. -/
def TaskManager.create_task (tm : TaskManager) (title description : PyVal)
    (now : Nat) : Except PyError (Task × TaskManager) :=
  if !title.truthy || !title.isStr then
    .error (.valueError "Task title must be a non-empty string")
  else
    match pyStrip title with
    | .error e => .error e
    | .ok t =>
      match pyStrip description with
      | .error e => .error e
      | .ok d =>
        let task : Task :=
          { id := tm.task_id_counter, title := t, description := d,
            status := "pending", created_at := now, updated_at := now }
        .ok (task, { tasks := tm.tasks ++ [task],
                     task_id_counter := tm.task_id_counter + 1 })

/-- `TaskManager.get_task`: first task with the given id, or `none`. -/
def TaskManager.get_task (tm : TaskManager) (task_id : Nat) : Option Task :=
  tm.tasks.find? (fun t => t.id == task_id)

/-- `TaskManager.get_all_tasks`. -/
def TaskManager.get_all_tasks (tm : TaskManager) : List Task := tm.tasks

/-- In-place mutation of the first task with the given id: the Python
code mutates the dict object returned by `get_task`, which is the first
element of the list with that id. -/
def updateFirst : List Task → Nat → Task → List Task
  | [], _, _ => []
  | t :: ts, task_id, t' =>
      if t.id == task_id then t' :: ts else t :: updateFirst ts task_id t'

/-- `TaskManager.update_task_status`: rejects a status outside
`VALID_STATUSES` with `ValueError` before any lookup; returns `none` for
a missing id; otherwise sets `status`, refreshes `updated_at` and
returns the mutated task. -/
def TaskManager.update_task_status (tm : TaskManager) (task_id : Nat)
    (status : PyVal) (now : Nat) : Except PyError (Option Task × TaskManager) :=
  if !status.inValidStatuses then
    .error (.valueError "Status must be one of the valid statuses")
  else
    match tm.get_task task_id with
    | none => .ok (none, tm)
    | some task =>
        let task' : Task := { task with status := status.asString, updated_at := now }
        .ok (some task', { tm with tasks := updateFirst tm.tasks task_id task' })

/-- `TaskManager.delete_task`: `list.remove` deletes the first element
equal to the dict found by `get_task`; returns whether a task was
removed. -/
def TaskManager.delete_task (tm : TaskManager) (task_id : Nat) :
    Bool × TaskManager :=
  match tm.get_task task_id with
  | some task => (true, { tm with tasks := tm.tasks.erase task })
  | none => (false, tm)

/-- One store operation, as invoked by a caller (arguments taken from a
request, plus the clock reading at call time). -/
inductive Op where
  | create (title description : PyVal) (now : Nat)
  | updateStatus (task_id : Nat) (status : PyVal) (now : Nat)
  | delete (task_id : Nat)

/-- State reached after one operation: a raised exception leaves the
store untouched (the Python methods raise before mutating anything). -/
def applyOp (tm : TaskManager) : Op → TaskManager
  | .create title description now =>
      match tm.create_task title description now with
      | .ok (_, tm') => tm'
      | .error _ => tm
  | .updateStatus task_id status now =>
      match tm.update_task_status task_id status now with
      | .ok (_, tm') => tm'
      | .error _ => tm
  | .delete task_id => (tm.delete_task task_id).2

/-- State reached from a fresh store by a sequence of operations. -/
def run (ops : List Op) : TaskManager := ops.foldl applyOp TaskManager.init

/-- Like `applyOp`, but also records the ids handed out by successful
creates, in the order they were assigned. -/
def stepIds (p : TaskManager × List Nat) (op : Op) : TaskManager × List Nat :=
  match op with
  | .create title description now =>
      match p.1.create_task title description now with
      | .ok (task, tm') => (tm', p.2 ++ [task.id])
      | .error _ => p
  | _ => (applyOp p.1 op, p.2)

/-- Run from a fresh store, collecting the assigned ids. -/
def runIds (ops : List Op) : TaskManager × List Nat :=
  ops.foldl stepIds (TaskManager.init, [])

/-- Classifies an outcome as a raised `ValueError`. -/
def isValueError {α : Type} : Except PyError α → Bool
  | .error (.valueError _) => true
  | _ => false

/-- A parsed JSON object body, as handed to a route handler by
`request.get_json()` (`none` stands for a missing/null body). -/
abbrev PyDict := List (String × PyVal)

/-- Python `data.get(key)` on a dict (`none` when the key is absent). -/
def PyDict.get? (d : PyDict) (key : String) : Option PyVal :=
  (d.find? (fun kv => kv.1 == key)).map (fun kv => kv.2)

/-- A JSON response of the facade, reduced to the fields the claims
mention: HTTP status code, the `success` flag, and the `task` /
`error` / `message` payload fields. -/
structure HttpResponse where
  status_code : Nat
  success : Bool
  task : Option Task
  error : Option String
  message : Option String
deriving Repr, DecidableEq

/-- The `PUT /tasks/<task_id>/status` handler from `create_app`:
400 when the body is missing, falsy (empty dict) or lacks a `status`
key; otherwise calls the store, mapping `ValueError` to 400, any other
exception to 500, a `None` result to 404, and success to 200 with the
updated task. -/
def update_task_status_route (tm : TaskManager) (task_id : Nat)
    (data : Option PyDict) (now : Nat) : HttpResponse × TaskManager :=
  match data with
  | none => (⟨400, false, none, some "Status is required", none⟩, tm)
  | some d =>
    if d.isEmpty then (⟨400, false, none, some "Status is required", none⟩, tm)
    else
      match d.get? "status" with
      | none => (⟨400, false, none, some "Status is required", none⟩, tm)
      | some status =>
        match tm.update_task_status task_id status now with
        | .error (.valueError msg) => (⟨400, false, none, some msg, none⟩, tm)
        | .error (.attributeError _) =>
            (⟨500, false, none, some "Internal server error", none⟩, tm)
        | .ok (none, tm') => (⟨404, false, none, some "Task not found", none⟩, tm')
        | .ok (some task, tm') => (⟨200, true, some task, none, none⟩, tm')

/-- The `POST /tasks` handler from `create_app`: 400 for a non-JSON
request or a missing/falsy body; otherwise reads `title`
(`data.get('title')`, `None` when absent) and `description`
(default `''`) and calls the store, mapping `ValueError` to 400, any
other exception to 500, and success to 201 with the created task. -/
def create_task_route (tm : TaskManager) (is_json : Bool)
    (data : Option PyDict) (now : Nat) : HttpResponse × TaskManager :=
  if !is_json then
    (⟨400, false, none, some "Content-Type must be application/json", none⟩, tm)
  else
    match data with
    | none => (⟨400, false, none, some "No data provided", none⟩, tm)
    | some d =>
      if d.isEmpty then (⟨400, false, none, some "No data provided", none⟩, tm)
      else
        let title := (d.get? "title").getD .pynone
        let description := (d.get? "description").getD (.str "")
        match tm.create_task title description now with
        | .ok (task, tm') => (⟨201, true, some task, none, none⟩, tm')
        | .error (.valueError msg) => (⟨400, false, none, some msg, none⟩, tm)
        | .error (.attributeError _) =>
            (⟨500, false, none, some "Internal server error", none⟩, tm)

/-- The id-related store invariant of claim C9: stored ids are pairwise
distinct and strictly below the counter. -/
def TaskManager.goodIds (tm : TaskManager) : Prop :=
  (tm.tasks.map Task.id).Nodup ∧
  ∀ i ∈ tm.tasks.map Task.id, i < tm.task_id_counter

/-- The inductive invariant tying a state of the collecting run to the
ids assigned so far: they are exactly `1, 2, ..., n`, the counter is
`n + 1`, and the surviving tasks' ids form a sublist (order kept). -/
def IdsInv (p : TaskManager × List Nat) : Prop :=
  p.2 = List.range' 1 p.2.length ∧
  p.1.task_id_counter = p.2.length + 1 ∧
  (p.1.tasks.map Task.id).Sublist p.2

/-- Every stored title is the stripped form of a Python-truthy string. -/
def TitleInv (tm : TaskManager) : Prop :=
  ∀ t ∈ tm.tasks, ∃ s : String, s.isEmpty = false ∧ t.title = pyStripStr s

/-! ### Helper lemmas -/

theorem title_guard_cases (title : PyVal) :
    (!title.truthy || !title.isStr) = true ∨
    ∃ s : String, title = .str s ∧ s.isEmpty = false := by
  cases title with
  | str s =>
      by_cases h : s.isEmpty
      · exact Or.inl (by simp [PyVal.truthy, PyVal.isStr, h])
      · exact Or.inr ⟨s, rfl, by simp [h]⟩
  | pynone => exact Or.inl rfl
  | int n => exact Or.inl (by simp [PyVal.truthy, PyVal.isStr])
  | bool b => exact Or.inl (by simp [PyVal.truthy, PyVal.isStr])

theorem create_task_of_bad_title (tm : TaskManager) {title : PyVal}
    (description : PyVal) (now : Nat)
    (h : (!title.truthy || !title.isStr) = true) :
    tm.create_task title description now =
      .error (.valueError "Task title must be a non-empty string") := by
  unfold TaskManager.create_task
  rw [h]
  rfl

theorem create_task_of_str (tm : TaskManager) {s : String}
    (hs : s.isEmpty = false) (d : String) (now : Nat) :
    tm.create_task (.str s) (.str d) now =
      .ok ({ id := tm.task_id_counter, title := pyStripStr s,
             description := pyStripStr d, status := "pending",
             created_at := now, updated_at := now },
           { tasks := tm.tasks ++
               [{ id := tm.task_id_counter, title := pyStripStr s,
                  description := pyStripStr d, status := "pending",
                  created_at := now, updated_at := now }],
             task_id_counter := tm.task_id_counter + 1 }) := by
  unfold TaskManager.create_task
  have hguard : (!(PyVal.str s).truthy || !(PyVal.str s).isStr) = false := by
    simp [PyVal.truthy, PyVal.isStr, hs]
  rw [hguard]
  rfl

theorem create_task_of_bad_description (tm : TaskManager) {s : String}
    (hs : s.isEmpty = false) {description : PyVal}
    (hd : description.isStr = false) (now : Nat) :
    tm.create_task (.str s) description now =
      .error (.attributeError "object has no attribute strip") := by
  unfold TaskManager.create_task
  have hguard : (!(PyVal.str s).truthy || !(PyVal.str s).isStr) = false := by
    simp [PyVal.truthy, PyVal.isStr, hs]
  rw [hguard]
  cases description with
  | str d => simp [PyVal.isStr] at hd
  | pynone => rfl
  | int n => rfl
  | bool b => rfl

theorem create_task_shape (tm : TaskManager) (title description : PyVal)
    (now : Nat) :
    (∃ e, tm.create_task title description now = .error e) ∨
    (∃ task, tm.create_task title description now =
        .ok (task, { tasks := tm.tasks ++ [task],
                     task_id_counter := tm.task_id_counter + 1 }) ∧
      task.id = tm.task_id_counter) := by
  rcases title_guard_cases title with hbad | ⟨s, rfl, hs⟩
  · exact Or.inl ⟨_, create_task_of_bad_title tm description now hbad⟩
  · cases hds : description with
    | str d => exact Or.inr ⟨_, create_task_of_str tm hs d now, rfl⟩
    | pynone =>
        exact Or.inl ⟨_, create_task_of_bad_description tm hs (by rfl) now⟩
    | int n =>
        exact Or.inl ⟨_, create_task_of_bad_description tm hs (by rfl) now⟩
    | bool b =>
        exact Or.inl ⟨_, create_task_of_bad_description tm hs (by rfl) now⟩

theorem stepIds_fst (p : TaskManager × List Nat) (op : Op) :
    (stepIds p op).1 = applyOp p.1 op := by
  cases op with
  | create title description now =>
      simp only [stepIds, applyOp]
      cases h : p.1.create_task title description now with
      | ok v => cases v with | mk task tm' => rfl
      | error e => rfl
  | updateStatus task_id status now => rfl
  | delete task_id => rfl

theorem foldl_stepIds_fst (ops : List Op) :
    ∀ p : TaskManager × List Nat,
      (ops.foldl stepIds p).1 = ops.foldl applyOp p.1 := by
  induction ops with
  | nil => intro p; rfl
  | cons op ops ih =>
      intro p
      rw [List.foldl_cons, List.foldl_cons, ih, stepIds_fst]

theorem runIds_fst (ops : List Op) : (runIds ops).1 = run ops :=
  foldl_stepIds_fst ops _

theorem update_task_status_of_bad_status (tm : TaskManager) (task_id : Nat)
    {status : PyVal} (now : Nat) (h : status.inValidStatuses = false) :
    tm.update_task_status task_id status now =
      .error (.valueError "Status must be one of the valid statuses") := by
  unfold TaskManager.update_task_status
  rw [h]
  rfl

theorem update_task_status_of_none (tm : TaskManager) (task_id : Nat)
    {status : PyVal} (now : Nat) (h : status.inValidStatuses = true)
    (hg : tm.get_task task_id = none) :
    tm.update_task_status task_id status now = .ok (none, tm) := by
  unfold TaskManager.update_task_status
  rw [h, hg]
  rfl

theorem update_task_status_of_some (tm : TaskManager) (task_id : Nat)
    {status : PyVal} (now : Nat) {task : Task}
    (h : status.inValidStatuses = true)
    (hg : tm.get_task task_id = some task) :
    tm.update_task_status task_id status now =
      .ok (some ({ task with status := status.asString, updated_at := now }),
           { tm with
             tasks :=
               updateFirst tm.tasks task_id
                 ({ task with status := status.asString, updated_at := now }) }) := by
  unfold TaskManager.update_task_status
  rw [h, hg]
  rfl

theorem get_task_some_mem {tm : TaskManager} {task_id : Nat} {t : Task}
    (h : tm.get_task task_id = some t) :
    t ∈ tm.tasks ∧ (t.id == task_id) = true := by
  have h' : List.find? (fun u => u.id == task_id) tm.tasks = some t := h
  have h2 := List.find?_some h'
  exact ⟨List.mem_of_find?_eq_some h', h2⟩

theorem updateFirst_map_id (ts : List Task) (task_id : Nat) {t' : Task}
    (h : t'.id = task_id) :
    (updateFirst ts task_id t').map Task.id = ts.map Task.id := by
  induction ts with
  | nil => rfl
  | cons t ts ih =>
      simp only [updateFirst]
      by_cases hid : (t.id == task_id) = true
      · rw [if_pos hid, List.map_cons, List.map_cons, h, eq_of_beq hid]
      · rw [if_neg (by simp_all), List.map_cons, List.map_cons, ih]

theorem updateFirst_mem (ts : List Task) (task_id : Nat) (t' : Task) :
    ∀ u ∈ updateFirst ts task_id t', u = t' ∨ u ∈ ts := by
  induction ts with
  | nil => intro u hu; cases hu
  | cons t ts ih =>
      intro u hu
      simp only [updateFirst] at hu
      by_cases hid : (t.id == task_id) = true
      · rw [if_pos hid] at hu
        rcases List.mem_cons.mp hu with rfl | hu
        · exact Or.inl rfl
        · exact Or.inr (List.mem_cons_of_mem _ hu)
      · rw [if_neg (by simp_all)] at hu
        rcases List.mem_cons.mp hu with rfl | hu
        · exact Or.inr (List.mem_cons_self _ _)
        · rcases ih u hu with h | h
          · exact Or.inl h
          · exact Or.inr (List.mem_cons_of_mem _ h)

theorem updateFirst_append (pre : List Task) (task : Task) (post : List Task)
    (task_id : Nat) (t' : Task)
    (hpre : ∀ u ∈ pre, (u.id == task_id) = false)
    (htask : (task.id == task_id) = true) :
    updateFirst (pre ++ task :: post) task_id t' = pre ++ t' :: post := by
  induction pre with
  | nil => simp only [List.nil_append, updateFirst, if_pos htask]
  | cons u pre ih =>
      have hu : (u.id == task_id) = false := hpre u (List.mem_cons_self _ _)
      simp only [List.cons_append, updateFirst, hu, List.append_eq]
      rw [if_neg (by simp), ih (fun v hv => hpre v (List.mem_cons_of_mem _ hv))]

theorem find?_id_append (pre : List Task) (task : Task) (post : List Task)
    (task_id : Nat)
    (hpre : ∀ u ∈ pre, (u.id == task_id) = false)
    (htask : (task.id == task_id) = true) :
    (pre ++ task :: post).find? (fun t => t.id == task_id) = some task := by
  induction pre with
  | nil => simp only [List.nil_append, List.find?_cons, htask]
  | cons u pre ih =>
      have hu : (u.id == task_id) = false := hpre u (List.mem_cons_self _ _)
      simp only [List.cons_append, List.find?_cons, hu]
      exact ih (fun v hv => hpre v (List.mem_cons_of_mem _ hv))

theorem erase_eq_filter_of_nodup (ts : List Task) (task_id : Nat) (t : Task)
    (hnd : (ts.map Task.id).Nodup)
    (hfind : ts.find? (fun u => u.id == task_id) = some t) :
    ts.erase t = ts.filter (fun u => !(u.id == task_id)) := by
  induction ts with
  | nil => cases hfind
  | cons u ts ih =>
      rw [List.find?_cons] at hfind
      by_cases hu : (u.id == task_id) = true
      · rw [hu] at hfind
        have htu : u = t := by simpa using hfind
        subst htu
        rw [List.erase_cons_head,
          List.filter_cons_of_neg (by simp [hu])]
        symm
        rw [List.filter_eq_self]
        intro x hx
        have hne : u.id ∉ ts.map Task.id := (List.nodup_cons.mp hnd).1
        have hxid : x.id ≠ task_id := by
          intro hxe
          exact hne (by
            rw [eq_of_beq hu]
            exact hxe ▸ List.mem_map_of_mem Task.id hx)
        simp [hxid]
      · have hu' : (u.id == task_id) = false := by
          simpa using hu
        rw [hu'] at hfind
        have hfind' : List.find? (fun v => v.id == task_id) ts = some t := hfind
        have ht : (t.id == task_id) = true := by
          have := List.find?_some hfind'
          exact this
        have hut : ¬(u == t) = true := by
          intro he
          rw [eq_of_beq he] at hu
          exact hu ht
        rw [List.erase_cons_tail hut,
          List.filter_cons_of_pos (by simp [hu']),
          ih (List.nodup_cons.mp hnd).2 hfind']

theorem find?_id_filter_ne (ts : List Task) (task_id : Nat) :
    (ts.filter (fun u => !(u.id == task_id))).find?
      (fun u => u.id == task_id) = none := by
  rw [List.find?_eq_none]
  intro x hx
  have := List.of_mem_filter hx
  simp at this
  simp [this]

theorem delete_task_of_none {tm : TaskManager} {task_id : Nat}
    (hg : tm.get_task task_id = none) :
    tm.delete_task task_id = (false, tm) := by
  simp only [TaskManager.delete_task, hg]

theorem applyOp_create_ok {tm tm' : TaskManager} {title description : PyVal}
    {now : Nat} {task : Task}
    (h : tm.create_task title description now = .ok (task, tm')) :
    applyOp tm (.create title description now) = tm' := by
  simp only [applyOp, h]

theorem applyOp_create_error {tm : TaskManager} {title description : PyVal}
    {now : Nat} {e : PyError}
    (h : tm.create_task title description now = .error e) :
    applyOp tm (.create title description now) = tm := by
  simp only [applyOp, h]

theorem applyOp_update_ok {tm tm' : TaskManager} {task_id : Nat}
    {status : PyVal} {now : Nat} {r : Option Task}
    (h : tm.update_task_status task_id status now = .ok (r, tm')) :
    applyOp tm (.updateStatus task_id status now) = tm' := by
  simp only [applyOp, h]

theorem applyOp_update_error {tm : TaskManager} {task_id : Nat}
    {status : PyVal} {now : Nat} {e : PyError}
    (h : tm.update_task_status task_id status now = .error e) :
    applyOp tm (.updateStatus task_id status now) = tm := by
  simp only [applyOp, h]

theorem stepIds_create_ok {tm tm' : TaskManager} {ids : List Nat}
    {title description : PyVal} {now : Nat} {task : Task}
    (h : tm.create_task title description now = .ok (task, tm')) :
    stepIds (tm, ids) (.create title description now) =
      (tm', ids ++ [task.id]) := by
  simp only [stepIds, h]

theorem stepIds_create_error {tm : TaskManager} {ids : List Nat}
    {title description : PyVal} {now : Nat} {e : PyError}
    (h : tm.create_task title description now = .error e) :
    stepIds (tm, ids) (.create title description now) = (tm, ids) := by
  simp only [stepIds, h]

theorem idsInv_init : IdsInv (TaskManager.init, []) := by
  refine ⟨rfl, rfl, ?_⟩
  simp [TaskManager.init]

theorem idsInv_step {p : TaskManager × List Nat} (op : Op)
    (h : IdsInv p) : IdsInv (stepIds p op) := by
  obtain ⟨tm, ids⟩ := p
  obtain ⟨hids, hcnt, hsub⟩ := h
  dsimp only at hids hcnt hsub
  cases op with
  | create title description now =>
      rcases create_task_shape tm title description now with ⟨e, he⟩ | ⟨task, hok, hid⟩
      · rw [stepIds_create_error he]
        exact ⟨hids, hcnt, hsub⟩
      · rw [stepIds_create_ok hok]
        refine ⟨?_, ?_, ?_⟩
        · show ids ++ [task.id] = List.range' 1 (ids ++ [task.id]).length
          have hlen : (ids ++ [task.id]).length = ids.length + 1 := by simp
          rw [hlen, List.range'_1_concat, ← hids, hid, hcnt]
          simp [Nat.add_comm]
        · show tm.task_id_counter + 1 = (ids ++ [task.id]).length + 1
          simp [hcnt]
        · show ((tm.tasks ++ [task]).map Task.id).Sublist (ids ++ [task.id])
          rw [List.map_append]
          exact hsub.append (by simp)
  | updateStatus task_id status now =>
      show IdsInv (applyOp tm (.updateStatus task_id status now), ids)
      by_cases hv : status.inValidStatuses = true
      · cases hg : tm.get_task task_id with
        | none =>
            rw [applyOp_update_ok (update_task_status_of_none tm task_id now hv hg)]
            exact ⟨hids, hcnt, hsub⟩
        | some task =>
            rw [applyOp_update_ok (update_task_status_of_some tm task_id now hv hg)]
            refine ⟨hids, hcnt, ?_⟩
            show ((updateFirst tm.tasks task_id _).map Task.id).Sublist ids
            have hidt : task.id = task_id := eq_of_beq (get_task_some_mem hg).2
            rw [updateFirst_map_id _ _ (by simpa using hidt)]
            exact hsub
      · have hv' : status.inValidStatuses = false := by simpa using hv
        rw [applyOp_update_error (update_task_status_of_bad_status tm task_id now hv')]
        exact ⟨hids, hcnt, hsub⟩
  | delete task_id =>
      show IdsInv ((tm.delete_task task_id).2, ids)
      cases hg : tm.get_task task_id with
      | none =>
          simp only [TaskManager.delete_task, hg]
          exact ⟨hids, hcnt, hsub⟩
      | some task =>
          simp only [TaskManager.delete_task, hg]
          refine ⟨hids, hcnt, ?_⟩
          exact ((List.erase_sublist task tm.tasks).map Task.id).trans hsub

theorem idsInv_foldl (ops : List Op) :
    ∀ p : TaskManager × List Nat, IdsInv p → IdsInv (ops.foldl stepIds p) := by
  induction ops with
  | nil => intro p h; exact h
  | cons op ops ih =>
      intro p h
      rw [List.foldl_cons]
      exact ih _ (idsInv_step op h)

theorem idsInv_runIds (ops : List Op) : IdsInv (runIds ops) :=
  idsInv_foldl ops _ idsInv_init

theorem goodIds_init : TaskManager.init.goodIds := by
  constructor
  · exact List.nodup_nil
  · intro i hi
    simp [TaskManager.init] at hi

theorem goodIds_applyOp (tm : TaskManager) (op : Op)
    (h : tm.goodIds) : (applyOp tm op).goodIds := by
  obtain ⟨hnd, hlt⟩ := h
  cases op with
  | create title description now =>
      rcases create_task_shape tm title description now with ⟨e, he⟩ | ⟨task, hok, hid⟩
      · rw [applyOp_create_error he]
        exact ⟨hnd, hlt⟩
      · rw [applyOp_create_ok hok]
        constructor
        · show ((tm.tasks ++ [task]).map Task.id).Nodup
          rw [List.map_append, List.nodup_append]
          refine ⟨hnd, by simp, ?_⟩
          intro a ha hb
          simp only [List.map_cons, List.map_nil, List.mem_singleton] at hb
          subst hb
          exact absurd (hlt _ ha) (by simp [hid])
        · intro i hi
          show i < tm.task_id_counter + 1
          rw [List.map_append] at hi
          rcases List.mem_append.mp hi with hi | hi
          · exact Nat.lt_succ_of_lt (hlt i hi)
          · simp only [List.map_cons, List.map_nil, List.mem_singleton] at hi
            subst hi
            simp [hid]
  | updateStatus task_id status now =>
      by_cases hv : status.inValidStatuses = true
      · cases hg : tm.get_task task_id with
        | none =>
            rw [applyOp_update_ok (update_task_status_of_none tm task_id now hv hg)]
            exact ⟨hnd, hlt⟩
        | some task =>
            rw [applyOp_update_ok (update_task_status_of_some tm task_id now hv hg)]
            have hidt : task.id = task_id := eq_of_beq (get_task_some_mem hg).2
            have hmap :
                (updateFirst tm.tasks task_id
                  ({ task with status := status.asString, updated_at := now })).map
                    Task.id = tm.tasks.map Task.id :=
              updateFirst_map_id _ _ (by simpa using hidt)
            constructor
            · show ((updateFirst tm.tasks task_id _).map Task.id).Nodup
              rw [hmap]; exact hnd
            · intro i hi
              rw [hmap] at hi
              exact hlt i hi
      · have hv' : status.inValidStatuses = false := by simpa using hv
        rw [applyOp_update_error (update_task_status_of_bad_status tm task_id now hv')]
        exact ⟨hnd, hlt⟩
  | delete task_id =>
      show ((tm.delete_task task_id).2).goodIds
      cases hg : tm.get_task task_id with
      | none =>
          simp only [TaskManager.delete_task, hg]
          exact ⟨hnd, hlt⟩
      | some task =>
          simp only [TaskManager.delete_task, hg]
          have hsub := (List.erase_sublist task tm.tasks).map Task.id
          exact ⟨hsub.nodup hnd, fun i hi => hlt i (hsub.subset hi)⟩

theorem goodIds_foldl (ops : List Op) :
    ∀ tm : TaskManager, tm.goodIds → (ops.foldl applyOp tm).goodIds := by
  induction ops with
  | nil => intro tm h; exact h
  | cons op ops ih =>
      intro tm h
      rw [List.foldl_cons]
      exact ih _ (goodIds_applyOp tm op h)

theorem goodIds_run (ops : List Op) : (run ops).goodIds :=
  goodIds_foldl ops _ goodIds_init

theorem titleInv_init : TitleInv TaskManager.init := by
  intro t ht
  simp [TaskManager.init] at ht

theorem titleInv_applyOp (tm : TaskManager) (op : Op)
    (h : TitleInv tm) : TitleInv (applyOp tm op) := by
  cases op with
  | create title description now =>
      rcases title_guard_cases title with hbad | ⟨s, rfl, hs⟩
      · rw [applyOp_create_error (create_task_of_bad_title tm description now hbad)]
        exact h
      · cases description with
        | str d =>
            rw [applyOp_create_ok (create_task_of_str tm hs d now)]
            intro t ht
            rcases List.mem_append.mp ht with ht | ht
            · exact h t ht
            · rw [List.mem_singleton] at ht
              subst ht
              exact ⟨s, hs, rfl⟩
        | pynone =>
            rw [applyOp_create_error
              (create_task_of_bad_description tm hs (by rfl) now)]
            exact h
        | int n =>
            rw [applyOp_create_error
              (create_task_of_bad_description tm hs (by rfl) now)]
            exact h
        | bool b =>
            rw [applyOp_create_error
              (create_task_of_bad_description tm hs (by rfl) now)]
            exact h
  | updateStatus task_id status now =>
      by_cases hv : status.inValidStatuses = true
      · cases hg : tm.get_task task_id with
        | none =>
            rw [applyOp_update_ok (update_task_status_of_none tm task_id now hv hg)]
            exact h
        | some task =>
            rw [applyOp_update_ok (update_task_status_of_some tm task_id now hv hg)]
            intro t ht
            rcases updateFirst_mem _ _ _ t ht with rfl | ht
            · obtain ⟨s, hs, htitle⟩ := h task (get_task_some_mem hg).1
              exact ⟨s, hs, htitle⟩
            · exact h t ht
      · have hv' : status.inValidStatuses = false := by simpa using hv
        rw [applyOp_update_error (update_task_status_of_bad_status tm task_id now hv')]
        exact h
  | delete task_id =>
      show TitleInv ((tm.delete_task task_id).2)
      cases hg : tm.get_task task_id with
      | none =>
          simp only [TaskManager.delete_task, hg]
          exact h
      | some task =>
          simp only [TaskManager.delete_task, hg]
          intro t ht
          exact h t ((List.erase_sublist task tm.tasks).subset ht)

theorem titleInv_foldl (ops : List Op) :
    ∀ tm : TaskManager, TitleInv tm → TitleInv (ops.foldl applyOp tm) := by
  induction ops with
  | nil => intro tm h; exact h
  | cons op ops ih =>
      intro tm h
      rw [List.foldl_cons]
      exact ih _ (titleInv_applyOp tm op h)

theorem titleInv_run (ops : List Op) : TitleInv (run ops) :=
  titleInv_foldl ops _ titleInv_init

/-! ### Claim theorems -/

/-- C1 counterexample: `create_task` accepts the whitespace-only title
`" "` (it is a truthy string, so the `not title or not isinstance`
check passes) and stores a task whose stripped title is the empty
string, contradicting both "raises ValueError whenever title is
whitespace-only" and "no task with an empty or whitespace-only title is
ever stored". -/
theorem C1_whitespace_title_accepted :
    TaskManager.init.create_task (.str " ") (.str "") 0 =
      .ok ({ id := 1, title := "", description := "", status := "pending",
             created_at := 0, updated_at := 0 },
           { tasks := [{ id := 1, title := "", description := "",
                         status := "pending", created_at := 0,
                         updated_at := 0 }],
             task_id_counter := 2 }) := by
  have h := create_task_of_str TaskManager.init (s := " ") (by rfl) "" 0
  have h1 : pyStripStr " " = "" := by decide
  rw [h, h1]
  rfl

/-- C1 (amended): `create_task` raises `ValueError` exactly when the
title is falsy (empty string, `None`, `0`, `False`) or not a string;
whitespace-only string titles are accepted.  Consequently, in every
reachable store state each stored task's title is the stripped form of
some non-empty string — possibly the empty string, when the accepted
title was whitespace-only. -/
theorem C1_title_validation_amended :
    (∀ (tm : TaskManager) (title description : PyVal) (now : Nat),
      isValueError (tm.create_task title description now) =
        (!title.truthy || !title.isStr)) ∧
    (∀ ops : List Op, ∀ t ∈ (run ops).tasks,
      ∃ s : String, s.isEmpty = false ∧ t.title = pyStripStr s) := by
  constructor
  · intro tm title description now
    rcases title_guard_cases title with hbad | ⟨s, rfl, hs⟩
    · rw [create_task_of_bad_title tm description now hbad, hbad]
      rfl
    · have hguard : (!(PyVal.str s).truthy || !(PyVal.str s).isStr) = false := by
        simp [PyVal.truthy, PyVal.isStr, hs]
      rw [hguard]
      cases description with
      | str d => rw [create_task_of_str tm hs d now]; rfl
      | pynone => rw [create_task_of_bad_description tm hs (by rfl) now]; rfl
      | int n => rw [create_task_of_bad_description tm hs (by rfl) now]; rfl
      | bool b => rw [create_task_of_bad_description tm hs (by rfl) now]; rfl
  · intro ops t ht
    exact titleInv_run ops t ht

/-- Witness for C1 (amended) at a concrete run. -/
theorem C1_title_validation_witness :
    ∃ s : String, s.isEmpty = false ∧
      ({ id := 1, title := "hi", description := "", status := "pending",
         created_at := 0, updated_at := 0 } : Task).title = pyStripStr s :=
  C1_title_validation_amended.2 [Op.create (.str "hi") (.str "") 0] _ (by decide)

/-- C2: calling `create_task` with an invalid title (empty string,
`None`, or any non-string value) raises `ValueError` and leaves the
store exactly as it was — the task list and counter are unchanged. -/
theorem C2_invalid_title_leaves_store_unchanged :
    ∀ (tm : TaskManager) (title description : PyVal) (now : Nat),
      (title = .str "" ∨ title = .pynone ∨ title.isStr = false) →
      (∃ msg, tm.create_task title description now =
        .error (.valueError msg)) ∧
      applyOp tm (.create title description now) = tm := by
  intro tm title description now h
  have hbad : (!title.truthy || !title.isStr) = true := by
    rcases h with rfl | rfl | h
    · decide
    · decide
    · simp [h]
  exact ⟨⟨_, create_task_of_bad_title tm description now hbad⟩,
         applyOp_create_error (create_task_of_bad_title tm description now hbad)⟩

/-- Witness for C2 at `title = None` on the fresh store. -/
theorem C2_invalid_title_witness :
    (∃ msg, TaskManager.init.create_task .pynone (.str "") 0 =
      .error (.valueError msg)) ∧
    applyOp TaskManager.init (.create .pynone (.str "") 0) = TaskManager.init :=
  C2_invalid_title_leaves_store_unchanged TaskManager.init .pynone (.str "") 0
    (Or.inr (Or.inl rfl))

/-- C3: over any operation sequence, the ids handed out by the
successful creates are exactly `1, 2, ..., n` in that order: the first
is 1, each subsequent one is exactly one greater than the previous, and
no id is ever assigned twice (deletions never roll the counter back). -/
theorem C3_ids_strictly_increasing_from_one :
    ∀ ops : List Op, (runIds ops).2 = List.range' 1 (runIds ops).2.length :=
  fun ops => (idsInv_runIds ops).1

/-- C4: with a status outside `VALID_STATUSES`, `update_task_status`
raises `ValueError` for every store state and every task id — whether
or not the id exists — and the store is unchanged. -/
theorem C4_invalid_status_checked_first :
    ∀ (tm : TaskManager) (task_id : Nat) (status : PyVal) (now : Nat),
      status.inValidStatuses = false →
      tm.update_task_status task_id status now =
        .error (.valueError "Status must be one of the valid statuses") ∧
      applyOp tm (.updateStatus task_id status now) = tm := by
  intro tm task_id status now h
  have he := update_task_status_of_bad_status tm task_id now h
  exact ⟨he, applyOp_update_error he⟩

/-- Witness for C4 at status `"bogus"` and a non-existent id. -/
theorem C4_invalid_status_witness :
    TaskManager.init.update_task_status 7 (.str "bogus") 0 =
      .error (.valueError "Status must be one of the valid statuses") ∧
    applyOp TaskManager.init (.updateStatus 7 (.str "bogus") 0) =
      TaskManager.init :=
  C4_invalid_status_checked_first TaskManager.init 7 (.str "bogus") 0 (by decide)

/-- C5: when the stored ids are distinct (which holds in every reachable
state), `delete_task` returns `False` and leaves the store untouched if
no task has the id, and otherwise returns `True` and removes exactly
the task with that id, keeping all other tasks in order; afterwards
`get_task` misses and a second delete returns `False`. -/
theorem C5_delete_semantics :
    ∀ (tm : TaskManager) (task_id : Nat),
      (tm.tasks.map Task.id).Nodup →
      (tm.get_task task_id = none → tm.delete_task task_id = (false, tm)) ∧
      (∀ t, tm.get_task task_id = some t →
        (tm.delete_task task_id).1 = true ∧
        (tm.delete_task task_id).2.tasks =
          tm.tasks.filter (fun u => !(u.id == task_id)) ∧
        (tm.delete_task task_id).2.get_task task_id = none ∧
        ((tm.delete_task task_id).2.delete_task task_id).1 = false) := by
  intro tm task_id hnd
  constructor
  · intro hg
    simp only [TaskManager.delete_task, hg]
  · intro t hg
    have hfilter : tm.tasks.erase t =
        tm.tasks.filter (fun u => !(u.id == task_id)) :=
      erase_eq_filter_of_nodup tm.tasks task_id t hnd hg
    have hdel : tm.delete_task task_id =
        (true, { tm with tasks := tm.tasks.erase t }) := by
      simp only [TaskManager.delete_task, hg]
    have htasks : (tm.delete_task task_id).2.tasks =
        tm.tasks.filter (fun u => !(u.id == task_id)) := by
      rw [hdel, hfilter]
    have hg2 : (tm.delete_task task_id).2.get_task task_id = none := by
      show (tm.delete_task task_id).2.tasks.find?
        (fun u => u.id == task_id) = none
      rw [htasks]
      exact find?_id_filter_ne tm.tasks task_id
    refine ⟨by rw [hdel], htasks, hg2, ?_⟩
    rw [delete_task_of_none hg2]

/-- Witness for C5 on a store holding two created tasks. -/
theorem C5_delete_witness :
    ((run [Op.create (.str "a") (.str "") 0,
           Op.create (.str "b") (.str "") 0]).delete_task 1).1 = true ∧
    ((run [Op.create (.str "a") (.str "") 0,
           Op.create (.str "b") (.str "") 0]).delete_task 1).2.tasks =
      (run [Op.create (.str "a") (.str "") 0,
            Op.create (.str "b") (.str "") 0]).tasks.filter
        (fun u => !(u.id == 1)) ∧
    ((run [Op.create (.str "a") (.str "") 0,
           Op.create (.str "b") (.str "") 0]).delete_task 1).2.get_task 1 =
      none ∧
    (((run [Op.create (.str "a") (.str "") 0,
            Op.create (.str "b") (.str "") 0]).delete_task 1).2.delete_task
        1).1 = false :=
  (C5_delete_semantics
      (run [Op.create (.str "a") (.str "") 0,
            Op.create (.str "b") (.str "") 0]) 1 (by decide)).2
    { id := 1, title := "a", description := "", status := "pending",
      created_at := 0, updated_at := 0 } (by decide)

/-- C6: a successful `update_task_status` on an existing task with a
valid status changes only that task's `status` and `updated_at` fields
(its id, title, description and created_at are kept by the record
update), leaves every other task and its position unchanged, and
returns the updated task. -/
theorem C6_update_status_frame :
    ∀ (tm : TaskManager) (task_id : Nat) (s : String) (now : Nat)
      (pre post : List Task) (task : Task),
      tm.tasks = pre ++ task :: post →
      (∀ u ∈ pre, (u.id == task_id) = false) →
      (task.id == task_id) = true →
      VALID_STATUSES.contains s = true →
      tm.update_task_status task_id (.str s) now =
        .ok (some ({ task with status := s, updated_at := now }),
             { tm with
               tasks :=
                 pre ++ ({ task with status := s, updated_at := now }) :: post }) := by
  intro tm task_id s now pre post task htasks hpre htask hs
  have hv : (PyVal.str s).inValidStatuses = true := by
    simpa [PyVal.inValidStatuses] using hs
  have hg : tm.get_task task_id = some task := by
    show tm.tasks.find? (fun u => u.id == task_id) = some task
    rw [htasks]
    exact find?_id_append pre task post task_id hpre htask
  rw [update_task_status_of_some tm task_id now hv hg, htasks,
    updateFirst_append pre task post task_id _ hpre htask]
  rfl

/-- Witness for C6 on a two-task store, updating the second task. -/
theorem C6_update_status_witness :
    ({ tasks := [{ id := 1, title := "a", description := "",
                   status := "pending", created_at := 0, updated_at := 0 },
                 { id := 2, title := "b", description := "",
                   status := "pending", created_at := 0, updated_at := 0 }],
       task_id_counter := 3 } : TaskManager).update_task_status 2
        (.str "completed") 9 =
      .ok (some ({ id := 2, title := "b", description := "",
                   status := "completed", created_at := 0, updated_at := 9 }),
           { tasks := [{ id := 1, title := "a", description := "",
                         status := "pending", created_at := 0,
                         updated_at := 0 },
                       { id := 2, title := "b", description := "",
                         status := "completed", created_at := 0,
                         updated_at := 9 }],
             task_id_counter := 3 }) :=
  C6_update_status_frame _ 2 "completed" 9
    [{ id := 1, title := "a", description := "", status := "pending",
       created_at := 0, updated_at := 0 }] []
    { id := 2, title := "b", description := "", status := "pending",
      created_at := 0, updated_at := 0 } rfl (by decide) (by decide) (by decide)

/-- C7: `get_all_tasks` returns the stored list itself; over any
operation sequence the surviving tasks' ids form a sublist of the ids
in assignment order (so the list is in creation order), equivalently
their ids are strictly increasing along the list; the fresh store
yields the empty list. -/
theorem C7_list_in_creation_order :
    ∀ ops : List Op,
      (run ops).get_all_tasks = (run ops).tasks ∧
      ((run ops).get_all_tasks.map Task.id).Sublist (runIds ops).2 ∧
      ((run ops).get_all_tasks.map Task.id).Pairwise (· < ·) ∧
      TaskManager.init.get_all_tasks = [] := by
  intro ops
  obtain ⟨hids, hcnt, hsub⟩ := idsInv_runIds ops
  rw [runIds_fst] at hsub
  refine ⟨rfl, hsub, ?_, rfl⟩
  have hp : ((runIds ops).2).Pairwise (· < ·) := by
    rw [hids]
    exact List.pairwise_lt_range' _ _
  exact List.Pairwise.sublist hsub hp

/-- C8: the `PUT /tasks/{id}/status` handler answers 400 when the body
is missing, empty or lacks a `status` field; 400 when the status value
is not one of the three enumerated values; 404 when the status is valid
but no task has the id; and 200 with the updated task on success. -/
theorem C8_put_status_route_codes :
    ∀ (tm : TaskManager) (task_id : Nat) (data : Option PyDict) (now : Nat),
      ((data = none ∨
          ∃ d, data = some d ∧ (d.isEmpty = true ∨ d.get? "status" = none)) →
        (update_task_status_route tm task_id data now).1.status_code = 400) ∧
      (∀ d status, data = some d → d.isEmpty = false →
        d.get? "status" = some status → status.inValidStatuses = false →
        (update_task_status_route tm task_id data now).1.status_code = 400) ∧
      (∀ d status, data = some d → d.isEmpty = false →
        d.get? "status" = some status → status.inValidStatuses = true →
        tm.get_task task_id = none →
        (update_task_status_route tm task_id data now).1.status_code = 404) ∧
      (∀ d status task, data = some d → d.isEmpty = false →
        d.get? "status" = some status → status.inValidStatuses = true →
        tm.get_task task_id = some task →
        (update_task_status_route tm task_id data now).1.status_code = 200 ∧
        (update_task_status_route tm task_id data now).1.success = true ∧
        (update_task_status_route tm task_id data now).1.task =
          some ({ task with status := status.asString, updated_at := now })) := by
  intro tm task_id data now
  refine ⟨?_, ?_, ?_, ?_⟩
  · rintro (rfl | ⟨d, rfl, hd | hd⟩)
    · rfl
    · simp [update_task_status_route, hd]
    · by_cases he : d.isEmpty = true
      · simp [update_task_status_route, he]
      · simp [update_task_status_route, he, hd]
  · rintro d status rfl he hget hv
    have herr := update_task_status_of_bad_status tm task_id now hv
    simp [update_task_status_route, he, hget, herr]
  · rintro d status rfl he hget hv hg
    have hok := update_task_status_of_none tm task_id now hv hg
    simp [update_task_status_route, he, hget, hok]
  · rintro d status task rfl he hget hv hg
    have hok := update_task_status_of_some tm task_id now hv hg
    refine ⟨?_, ?_, ?_⟩ <;> simp [update_task_status_route, he, hget, hok]

/-- Witness for C8 at a missing request body. -/
theorem C8_put_status_route_witness :
    (update_task_status_route TaskManager.init 1 none 0).1.status_code = 400 :=
  (C8_put_status_route_codes TaskManager.init 1 none 0).1 (Or.inl rfl)

/-- C9: stored ids are pairwise distinct and strictly below the counter
in the initial state, the invariant is preserved by every single
operation (create, update-status, delete), and hence holds in every
reachable state. -/
theorem C9_ids_distinct_below_counter :
    TaskManager.init.goodIds ∧
    (∀ (tm : TaskManager) (op : Op), tm.goodIds → (applyOp tm op).goodIds) ∧
    (∀ ops : List Op, (run ops).goodIds) :=
  ⟨goodIds_init, goodIds_applyOp, goodIds_run⟩

/-- Witness for C9: the preservation step applied to a concrete state
and a delete operation. -/
theorem C9_ids_distinct_witness :
    (applyOp { tasks := [{ id := 1, title := "a", description := "",
                           status := "pending", created_at := 0,
                           updated_at := 0 }],
               task_id_counter := 2 } (Op.delete 1)).goodIds :=
  C9_ids_distinct_below_counter.2.1 _ (Op.delete 1)
    ⟨by decide, by decide⟩

/-- C10: `create_task` with a valid title but a non-string description
raises `AttributeError` (from `.strip()` on the description), which is
not the `ValueError` kind; the `POST /tasks` handler therefore answers
500, not 400, for such a request. -/
theorem C10_nonstring_description_500 :
    ∀ (tm : TaskManager) (now : Nat) (s : String) (description : PyVal)
      (d : PyDict),
      s.isEmpty = false → description.isStr = false →
      tm.create_task (.str s) description now =
        .error (.attributeError "object has no attribute strip") ∧
      isValueError (tm.create_task (.str s) description now) = false ∧
      (d.isEmpty = false → d.get? "title" = some (.str s) →
        d.get? "description" = some description →
        (create_task_route tm true (some d) now).1.status_code = 500) := by
  intro tm now s description d hs hd
  have herr := create_task_of_bad_description tm hs hd now
  refine ⟨herr, by rw [herr]; rfl, ?_⟩
  intro he ht hdesc
  simp [create_task_route, he, ht, hdesc, herr]

/-- Witness for C10: a JSON body with a string title and a `None`
description is answered with 500. -/
theorem C10_nonstring_description_witness :
    (create_task_route TaskManager.init true
      (some [("title", PyVal.str "Task"), ("description", PyVal.pynone)])
      0).1.status_code = 500 :=
  (C10_nonstring_description_500 TaskManager.init 0 "Task" .pynone
      [("title", PyVal.str "Task"), ("description", PyVal.pynone)]
      (by decide) (by decide)).2.2 (by decide) (by decide) (by decide)

end TaskApp
